import Mathlib

set_option autoImplicit false

/-!
Shallow embedding of the weatherio backend.

The authoritative iteration is src/script.py (the one imported by
src/tests.py); src/main.py is the earlier iteration and is embedded where
its behaviour differs (the extra index adjustment in its weather handler).
Machine floats of the source are modelled as exact rationals: the code
only ever compares coordinates for equality, never computes with them.
Network calls, sleeps and SQL are modelled by explicit oracles, traces and
pure state passing.
-/

namespace Weatherio

/-- A wall-clock time of day, as Python's `datetime.time`: an
(hour, minute, second, microsecond) tuple. -/
structure TimeOfDay where
  hour : Nat
  minute : Nat
  second : Nat
  micro : Nat
  deriving DecidableEq

/-- Python `time.__gt__`: lexicographic comparison on
(hour, minute, second, microsecond); the handler evaluates
`time > datetime.now().time()` (script.py line 394). -/
def timeAfter (t n : TimeOfDay) : Bool :=
  decide (t.hour > n.hour ∨ (t.hour = n.hour ∧ (t.minute > n.minute ∨
    (t.minute = n.minute ∧ (t.second > n.second ∨
      (t.second = n.second ∧ t.micro > n.micro))))))

/-- Hour disambiguation of the weather handler (script.py lines 394-397 and
main.py lines 347-350, identical in both):
`requested_hour = time.hour if time.minute <= 30 else (time.hour + 1) % 24`
when `time > now`, else `requested_hour = time.hour`. -/
def requestedHour (t now : TimeOfDay) : Nat :=
  if timeAfter t now then
    if t.minute ≤ 30 then t.hour else (t.hour + 1) % 24
  else t.hour

/-- Index computation of script.py line 399: `index = requested_hour -
update_hour`, with no further adjustment. -/
def resolveIndex (updateHour : Nat) (t now : TimeOfDay) : Int :=
  (requestedHour t now : Int) - (updateHour : Int)

/-- Index computation of main.py lines 352-354: the same subtraction
`index = requested_hour - update_hour` followed by
`if index < 0: index -= 1`. -/
def resolveIndexMain (updateHour : Nat) (t now : TimeOfDay) : Int :=
  if resolveIndex updateHour t now < 0 then resolveIndex updateHour t now - 1
  else resolveIndex updateHour t now

/-- The closed set of weather parameters (class WeatherParameter,
script.py lines 87-92). -/
inductive WeatherParameter where
  | temperature
  | humidity
  | precipitation
  | windSpeed
  | pressure
  deriving DecidableEq

/-- One entry of the upstream `hourly.time` list; the handler only ever
reads its `.hour` component (script.py line 392). -/
structure Timestamp where
  day : Nat
  hour : Nat
  deriving DecidableEq

/-- The `hourly` object of one cached forecast: the `time` list and one
index-aligned value list per parameter. -/
structure Hourly where
  times : List Timestamp
  temperature2m : List Int
  relativeHumidity2m : List Int
  precipitation : List Int
  windSpeed10m : List Int
  surfacePressure : List Int
  deriving DecidableEq

/-- Lookup `hourly[p.value]` for a parameter `p` (script.py line 401). -/
def Hourly.param (h : Hourly) : WeatherParameter → List Int
  | .temperature => h.temperature2m
  | .humidity => h.relativeHumidity2m
  | .precipitation => h.precipitation
  | .windSpeed => h.windSpeed10m
  | .pressure => h.surfacePressure

/-- One cached forecast payload (`forecast_json` of one city). -/
structure Forecast where
  hourly : Hourly
  deriving DecidableEq

/-- Python sequence indexing `l[i]`: a non-negative index reads from the
front, a negative index `i` reads position `len(l) + i`, and anything
outside `[-len(l), len(l))` raises IndexError (modelled as `none`). -/
def pyGet {α : Type} (l : List α) (i : Int) : Option α :=
  if 0 ≤ i then l.get? i.toNat
  else if 0 ≤ (l.length : Int) + i then l.get? ((l.length : Int) + i).toNat
  else none

/-- One row of the `cities` table. -/
structure CityRow where
  id : Nat
  name : String
  lat : ℚ
  lon : ℚ
  forecast : Option Forecast
  deriving DecidableEq

/-- CityRepo.get_forecast_json (script.py lines 349-355): the first row
whose name matches, returning its forecast only when it is non-NULL;
`none` both when no row matches and when `forecast_json` is NULL. -/
def getForecastJson (store : List CityRow) (name : String) : Option Forecast :=
  match store.find? (fun c => c.name == name) with
  | some c => c.forecast
  | none => none

/-- Outcome of the `/weather/city/{name}` handler: a successful body, an
HTTPException 404 with its detail string, or an unhandled exception. -/
inductive WeatherOutcome where
  | ok (data : List (WeatherParameter × Int))
  | notFound (detail : String)
  | fault
  deriving DecidableEq

/-- The dict comprehension `{p.value: hourly[p.value][index] for p in
include}` (script.py line 401); any out-of-bounds lookup raises. -/
def extractAll (h : Hourly) (ps : List WeatherParameter) (i : Int) :
    Option (List (WeatherParameter × Int)) :=
  match ps with
  | [] => some []
  | p :: rest =>
    match pyGet (h.param p) i, extractAll h rest i with
    | some v, some d => some ((p, v) :: d)
    | _, _ => none

/-- The city_weather handler of script.py lines 377-405: read the cached
forecast (404 when absent), take `update_hour` from the first `time`
entry, resolve the index and project the requested parameters. -/
def cityWeather (store : List CityRow) (name : String) (t now : TimeOfDay)
    (ps : List WeatherParameter) : WeatherOutcome :=
  match getForecastJson store name with
  | none => .notFound "City not found or forecast is not available"
  | some f =>
    match f.hourly.times.get? 0 with
    | none => .fault
    | some ts =>
      match extractAll f.hourly ps (resolveIndex ts.hour t now) with
      | some data => .ok data
      | none => .fault

/-- A latitude/longitude pair. -/
abbrev Coord := ℚ × ℚ

/-- The parsed JSON body of one upstream response: the provider returns a
list of objects for a multi-coordinate request and a single object for one
coordinate (script.py line 181). -/
inductive UpstreamJson where
  | one (f : Forecast)
  | many (fs : List Forecast)
  deriving DecidableEq

/-- `data if isinstance(data, list) else [data]` (script.py line 181). -/
def wrapData : UpstreamJson → List Forecast
  | .many fs => fs
  | .one f => [f]

/-- What one HTTP attempt against the upstream can produce: a response
with some status code and body, or a failure to establish the connection
(an `httpx` error that is not `HTTPStatusError`). -/
inductive AttemptResult where
  | response (status : Nat) (data : UpstreamJson)
  | connError
  deriving DecidableEq

/-- `raise_for_status` raises `HTTPStatusError` exactly for status >= 400,
which is the only exception the retry loop catches (script.py line 182). -/
def isRetryableFailure : AttemptResult → Bool
  | .response s _ => decide (400 ≤ s)
  | .connError => false

/-- How a call to OpenMeteoRepo.fetch_forecasts terminates. -/
inductive FetchOutcome where
  | ok (payloads : List Forecast)
  | unaccessable
  | uncaughtError
  | noneReturned
  deriving DecidableEq

/-- Observable trace of one fetch_forecasts call: its outcome, the number
of HTTP requests made, and the sleeps performed between attempts. -/
structure FetchTrace where
  outcome : FetchOutcome
  attempts : Nat
  sleeps : List Nat
  deriving DecidableEq

/-- The retry loop of script.py lines 175-187 (`retries, wait_for = 3, 10`),
processing attempts `a, a+1, ...` with `fuel` loop iterations left.  The
`attempt == retries - 1` test corresponds to `fuel = 0` after the current
iteration; falling off the loop returns Python `None` (unreachable from
`attemptLoop oracle 0 3`). -/
def attemptLoop (oracle : Nat → AttemptResult) : Nat → Nat → FetchTrace
  | _, 0 => ⟨.noneReturned, 0, []⟩
  | a, fuel + 1 =>
    match oracle a with
    | .connError => ⟨.uncaughtError, 1, []⟩
    | .response s d =>
      if 400 ≤ s then
        if fuel = 0 then ⟨.unaccessable, 1, []⟩
        else
          let t := attemptLoop oracle (a + 1) fuel
          ⟨t.outcome, t.attempts + 1, 10 :: t.sleeps⟩
      else ⟨.ok (wrapData d), 1, []⟩

/-- OpenMeteoRepo.fetch_forecasts (script.py lines 152-187): empty input
returns `[]` with no request; otherwise the 3-attempt retry loop runs,
with the outcome of each attempt supplied by `oracle`. -/
def fetchForecasts (coordinates : List Coord) (oracle : Nat → AttemptResult) :
    FetchTrace :=
  if coordinates.isEmpty then ⟨.ok [], 0, []⟩
  else attemptLoop oracle 0 3

/-- The forecast column of the cities table, keyed by city id. -/
abbrev Store := Nat → Option Forecast

/-- `UPDATE cities SET forecast_json = ? WHERE id = ?` (script.py 228). -/
def writeForecast (st : Store) (cid : Nat) (f : Forecast) : Store :=
  fun x => if x = cid then some f else st x

/-- The write loop `for city_id, forecast in zip(ids, forecasts)`
(script.py lines 227-231): Python's `zip` silently stops at the shorter
of the two lists. -/
def writePage (st : Store) (ids : List Nat) (fs : List Forecast) : Store :=
  (ids.zip fs).foldl (fun s q => writeForecast s q.1 q.2) st

/-- One page of `fetchmany(100)` rows: (id, latitude, longitude). -/
abbrev Page := List (Nat × ℚ × ℚ)

/-- The ids of one page, in row order (script.py line 222). -/
def idsOf (p : Page) : List Nat := p.map (fun r => r.1)

/-- How the fetch for one page terminates: success with the returned
series, `OpenMeteoUnnacessableError` (the only exception the page loop
catches, script.py line 233), or any other exception, which escapes
refresh_forecasts and aborts the cycle. -/
inductive PageFetch where
  | ok (fs : List Forecast)
  | unavailable
  | crash
  deriving DecidableEq

/-- The page loop of refresh_forecasts (script.py lines 217-235), with
the fetch outcome for the page at position `j` supplied by `fetch j`.
The ONE cursor obtained at line 214 serves both the paging SELECT (its
`fetchmany(100)` yields the pages) and the per-row UPDATEs of line 228:
in sqlite3, executing a new statement on a cursor discards its pending
result set, so as soon as one page executes at least one UPDATE (its
`zip(ids, forecasts)` is non-empty), the next `fetchmany(100)` returns
`[]` and the loop breaks — the remaining pages are abandoned.  A fetch
failing with `OpenMeteoUnnacessableError` runs no UPDATE, leaving the
cursor intact, and the loop continues; any other exception propagates
(`Except.error`). -/
def refreshGo (fetch : Nat → PageFetch) : List Page → Nat → Store → Except Unit Store
  | [], _, st => .ok st
  | p :: rest, j, st =>
    match fetch j with
    | .ok fs =>
      if (idsOf p).zip fs = [] then refreshGo fetch rest (j + 1) st
      else .ok (writePage st (idsOf p) fs)
    | .unavailable => refreshGo fetch rest (j + 1) st
    | .crash => .error ()

/-- The store produced when no page crashes: the same recursion — page
writes end the pagination — with the abort case ignored; `refreshGo`
returns `.ok` of this store whenever no `fetch` outcome is `.crash`. -/
def refreshPure (fetch : Nat → PageFetch) : List Page → Nat → Store → Store
  | [], _, st => st
  | p :: rest, j, st =>
    match fetch j with
    | .ok fs =>
      if (idsOf p).zip fs = [] then refreshPure fetch rest (j + 1) st
      else writePage st (idsOf p) fs
    | _ => refreshPure fetch rest (j + 1) st

/-- refresh_forecasts (script.py lines 212-235): `pages` are the rows the
initial SELECT would deliver page by page, and the recursion reproduces
the shared-cursor interaction between paging and writing. -/
def refreshForecasts (pages : List Page) (fetch : Nat → PageFetch) (st : Store) :
    Except Unit Store :=
  refreshGo fetch pages 0 st

/-- The inter-cycle sleep of refresh_task (script.py lines 246-248):
`max(0, (timedelta(minutes=15) - (end_time - start_time)).total_seconds())`,
in seconds. -/
def sleepSeconds (elapsed : ℚ) : ℚ :=
  max 0 (15 * 60 - elapsed)

/-- The response model CitySummary (script.py lines 47-51). -/
structure CitySummary where
  id : Nat
  name : String
  lat : ℚ
  lon : ℚ
  deriving DecidableEq

/-- A validated CityCreate payload (script.py lines 58-73): name already
lowercased, coordinates already rounded, id client-supplied or fresh. -/
structure CityCreate where
  id : Nat
  name : String
  lat : ℚ
  lon : ℚ
  deriving DecidableEq

/-- The duplicate check of add_city (script.py lines 300-304): the first
row matching name, latitude and longitude. -/
def findCity (store : List CityRow) (name : String) (lat lon : ℚ) :
    Option CityRow :=
  store.find? (fun c => decide (c.name = name ∧ c.lat = lat ∧ c.lon = lon))

/-- Result of one add_city call: the returned summary (`none` when the
INSERT raised IntegrityError), the resulting table, and whether an
upstream fetch and an INSERT were performed. -/
structure AddCityResult where
  summary : Option CitySummary
  store : List CityRow
  fetchAttempted : Bool
  inserted : Bool
  deriving DecidableEq

/-- CityRepo.add_city (script.py lines 297-331).  `fetched` models the
initial-forecast fetch for the new city: `some f` when it succeeded,
`none` when it raised `OpenMeteoUnnacessableError` (caught, leaving the
column NULL).  A row matching (name, lat, lon) short-circuits before any
fetch or insert; otherwise the INSERT respects UNIQUE(latitude, longitude)
(script.py line 128). -/
def addCity (store : List CityRow) (c : CityCreate) (fetched : Option Forecast) :
    AddCityResult :=
  match findCity store c.name c.lat c.lon with
  | some row => ⟨some ⟨row.id, row.name, row.lat, row.lon⟩, store, false, false⟩
  | none =>
    if store.any (fun r => decide (r.lat = c.lat ∧ r.lon = c.lon)) then
      ⟨none, store, true, false⟩
    else
      ⟨some ⟨c.id, c.name, c.lat, c.lon⟩,
        store ++ [⟨c.id, c.name, c.lat, c.lon, fetched⟩], true, true⟩

/-- A sample 24-point `time` list starting at hour `h0` of day 0, as the
upstream returns it: consecutive hours with day rollover. -/
def sampleTimes (h0 : Nat) : List Timestamp :=
  (List.range 24).map (fun i => ⟨(h0 + i) / 24, (h0 + i) % 24⟩)

/-- Sample parameter values: the value at offset `i` is `i`, so the
position a lookup read from is visible in the value it returned. -/
def sampleVals : List Int :=
  (List.range 24).map (fun i => (i : Int))

/-- A sample well-formed cached forecast whose series starts at hour
`h0`. -/
def sampleForecast (h0 : Nat) : Forecast :=
  ⟨⟨sampleTimes h0, sampleVals, sampleVals, sampleVals, sampleVals, sampleVals⟩⟩

/-- A one-city store caching `sampleForecast h0` for city "tokyo". -/
def sampleStore (h0 : Nat) : List CityRow :=
  [⟨1, "tokyo", 0, 0, some (sampleForecast h0)⟩]

/-! ## Helper lemmas -/

theorem requestedHour_lt_24 (t now : TimeOfDay) (ht : t.hour < 24) :
    requestedHour t now < 24 := by
  unfold requestedHour
  split
  · split
    · exact ht
    · exact Nat.mod_lt _ (by norm_num)
  · exact ht

theorem resolveIndex_lower (uh : Nat) (t now : TimeOfDay) (hu : uh < 24) :
    -23 ≤ resolveIndex uh t now := by
  unfold resolveIndex
  omega

theorem resolveIndex_upper (uh : Nat) (t now : TimeOfDay) (ht : t.hour < 24) :
    resolveIndex uh t now ≤ 23 := by
  have h := requestedHour_lt_24 t now ht
  unfold resolveIndex
  omega

theorem pyGet_eq_some_of_bounds {α : Type} (l : List α) (i : Int)
    (h1 : -(l.length : Int) ≤ i) (h2 : i < (l.length : Int)) :
    ∃ v, pyGet l i = some v := by
  unfold pyGet
  by_cases h : 0 ≤ i
  · rw [if_pos h]
    have hlt : i.toNat < l.length := by omega
    exact ⟨l.get ⟨i.toNat, hlt⟩, List.get?_eq_get hlt⟩
  · rw [if_neg h, if_pos (by omega)]
    have hlt : ((l.length : Int) + i).toNat < l.length := by omega
    exact ⟨l.get ⟨((l.length : Int) + i).toNat, hlt⟩, List.get?_eq_get hlt⟩

theorem pyGet_neg {α : Type} (l : List α) (i : Int) (hneg : i < 0) :
    pyGet l i =
      if 0 ≤ (l.length : Int) + i then l.get? ((l.length : Int) + i).toNat
      else none := by
  unfold pyGet
  rw [if_neg (by omega)]

theorem extractAll_eq_some (h : Hourly) (ps : List WeatherParameter) (i : Int)
    (hp : ∀ p, ∃ v, pyGet (h.param p) i = some v) :
    ∃ d, extractAll h ps i = some d := by
  induction ps with
  | nil => exact ⟨[], rfl⟩
  | cons p rest ih =>
    obtain ⟨v, hv⟩ := hp p
    obtain ⟨d, hd⟩ := ih
    exact ⟨(p, v) :: d, by simp [extractAll, hv, hd]⟩

theorem cityWeather_returns_ok (store : List CityRow) (name : String)
    (t now : TimeOfDay) (ps : List WeatherParameter) (f : Forecast) (ts : Timestamp)
    (hf : getForecastJson store name = some f)
    (hts : f.hourly.times.get? 0 = some ts)
    (hh : ts.hour < 24) (ht : t.hour < 24)
    (hlen : ∀ p, (f.hourly.param p).length = 24) :
    ∃ data, cityWeather store name t now ps = .ok data := by
  have hp : ∀ p, ∃ v, pyGet (f.hourly.param p) (resolveIndex ts.hour t now) = some v := by
    intro p
    apply pyGet_eq_some_of_bounds
    · rw [hlen p]
      have := resolveIndex_lower ts.hour t now hh
      omega
    · rw [hlen p]
      have := resolveIndex_upper ts.hour t now ht
      omega
  obtain ⟨d, hd⟩ := extractAll_eq_some f.hourly ps _ hp
  exact ⟨d, by simp only [cityWeather, hf, hts, hd]⟩

/-! ## Claims -/

/-- C5: the hour disambiguation of the resolver: when the requested
time-of-day is strictly after now, `requested_hour` is the requested hour
for minute <= 30 and `(hour + 1) % 24` otherwise; when it is at or before
now, it is the requested hour unrounded; the returned index is
`requested_hour - update_hour`; start hour 10 with requested 10:00 and
now 10:05 yields index 0, and start hour 10 with requested 14:00 and now
09:00 yields index 4. -/
theorem claim5_hour_disambiguation (t now : TimeOfDay) (uh : Nat) :
    (timeAfter t now = true →
      requestedHour t now = if t.minute ≤ 30 then t.hour else (t.hour + 1) % 24)
    ∧ (timeAfter t now = false → requestedHour t now = t.hour)
    ∧ resolveIndex uh t now = (requestedHour t now : Int) - (uh : Int)
    ∧ resolveIndex 10 ⟨10, 0, 0, 0⟩ ⟨10, 5, 0, 0⟩ = 0
    ∧ resolveIndex 10 ⟨14, 0, 0, 0⟩ ⟨9, 0, 0, 0⟩ = 4 := by
  refine ⟨fun h => ?_, fun h => ?_, rfl, by decide, by decide⟩
  · simp only [requestedHour, h, if_true]
  · simp only [requestedHour, h, Bool.false_eq_true, if_false]

/-- C5 witness: the disambiguation rule evaluated at the two concrete
examples (requested 14:00 after now 09:00; requested 10:00 at or before
now 10:05). -/
theorem claim5_witness :
    requestedHour ⟨14, 0, 0, 0⟩ ⟨9, 0, 0, 0⟩ =
      (if (14 : Nat) ≤ 30 ∨ True then
        if (⟨14, 0, 0, 0⟩ : TimeOfDay).minute ≤ 30 then (⟨14, 0, 0, 0⟩ : TimeOfDay).hour
        else ((⟨14, 0, 0, 0⟩ : TimeOfDay).hour + 1) % 24
      else 0)
    ∧ requestedHour ⟨10, 0, 0, 0⟩ ⟨10, 5, 0, 0⟩ = (⟨10, 0, 0, 0⟩ : TimeOfDay).hour := by
  constructor
  · rw [if_pos (Or.inr trivial)]
    exact (claim5_hour_disambiguation ⟨14, 0, 0, 0⟩ ⟨9, 0, 0, 0⟩ 10).1 (by decide)
  · exact (claim5_hour_disambiguation ⟨10, 0, 0, 0⟩ ⟨10, 5, 0, 0⟩ 10).2.1 (by decide)

/-- C9: for a cached series whose parameter sequences have 24 entries and
a valid requested time-of-day, the handler's index lies in [-23, 23], so
the per-parameter lookup is total under Python index semantics and the
handler returns a value; a negative index reads position `24 + index`, a
strictly positive offset into the horizon rather than the pre-start
moment the user named. -/
theorem claim9_index_always_in_range (store : List CityRow) (name : String)
    (t now : TimeOfDay) (ps : List WeatherParameter) (f : Forecast) (ts : Timestamp)
    (hf : getForecastJson store name = some f)
    (hts : f.hourly.times.get? 0 = some ts)
    (hh : ts.hour < 24) (ht : t.hour < 24)
    (hlen : ∀ p, (f.hourly.param p).length = 24) :
    (-23 ≤ resolveIndex ts.hour t now ∧ resolveIndex ts.hour t now ≤ 23)
    ∧ (∀ p, ∃ v, pyGet (f.hourly.param p) (resolveIndex ts.hour t now) = some v)
    ∧ (resolveIndex ts.hour t now < 0 → ∀ p,
        pyGet (f.hourly.param p) (resolveIndex ts.hour t now)
          = (f.hourly.param p).get? ((24 : Int) + resolveIndex ts.hour t now).toNat
        ∧ 0 < (24 : Int) + resolveIndex ts.hour t now)
    ∧ ∃ data, cityWeather store name t now ps = .ok data := by
  have hlo := resolveIndex_lower ts.hour t now hh
  have hhi := resolveIndex_upper ts.hour t now ht
  refine ⟨⟨hlo, hhi⟩, ?_, ?_, ?_⟩
  · intro p
    apply pyGet_eq_some_of_bounds <;> rw [hlen p] <;> omega
  · intro hneg p
    constructor
    · rw [pyGet_neg _ _ hneg, hlen p]
      rw [if_pos (by omega)]
      norm_num
    · omega
  · exact cityWeather_returns_ok store name t now ps f ts hf hts hh ht hlen

/-- C9 witness: the 24-entry sample series starting at hour 23, requested
01:00 with now 02:00: the handler returns a value. -/
theorem claim9_witness :
    ∃ data, cityWeather (sampleStore 23) "tokyo" ⟨1, 0, 0, 0⟩ ⟨2, 0, 0, 0⟩
      [.temperature] = .ok data :=
  (claim9_index_always_in_range (sampleStore 23) "tokyo" ⟨1, 0, 0, 0⟩ ⟨2, 0, 0, 0⟩
    [.temperature] (sampleForecast 23) ⟨0, 23⟩ (by decide) (by decide) (by decide)
    (by decide) (fun p => by cases p <;> decide)).2.2.2

/-- C1 counterexample: for a series starting at hour 23 and requested
hour 1 (next day, requested at or before now so no rounding), script.py's
resolver yields -22 — not a small positive index — main.py's yields -23,
and the out-of-[0, 24) index is not reported to the caller: the handler
indexes the parameter sequences with it and answers with the value at
position 2. -/
theorem claim1_counterexample :
    resolveIndex 23 ⟨1, 0, 0, 0⟩ ⟨2, 0, 0, 0⟩ = -22
    ∧ resolveIndexMain 23 ⟨1, 0, 0, 0⟩ ⟨2, 0, 0, 0⟩ = -23
    ∧ ¬ 0 ≤ resolveIndex 23 ⟨1, 0, 0, 0⟩ ⟨2, 0, 0, 0⟩
    ∧ cityWeather (sampleStore 23) "tokyo" ⟨1, 0, 0, 0⟩ ⟨2, 0, 0, 0⟩ [.temperature]
        = .ok [(.temperature, 2)] := by
  refine ⟨by decide, by decide, by decide, by decide⟩

/-- C1 (amended): when the requested hour is numerically below the
series' start hour, script.py applies no day-rollover adjustment at all
and main.py subtracts 1 more, making the negative index more negative;
neither reports the out-of-[0, 24) index to the caller as out of range:
the 24-entry parameter sequences are indexed with it directly, Python's
negative-index semantics reading position `length + index`. -/
theorem claim1_no_out_of_range_report (uh : Nat) (t now : TimeOfDay) (l : List Int)
    (h1 : requestedHour t now < uh) (h2 : uh < 24) (hl : l.length = 24) :
    resolveIndex uh t now = (requestedHour t now : Int) - (uh : Int)
    ∧ resolveIndex uh t now < 0
    ∧ resolveIndexMain uh t now = (requestedHour t now : Int) - (uh : Int) - 1
    ∧ (∃ v, pyGet l (resolveIndex uh t now) = some v)
    ∧ pyGet l (resolveIndex uh t now)
        = l.get? ((l.length : Int) + resolveIndex uh t now).toNat := by
  have hneg : resolveIndex uh t now < 0 := by
    unfold resolveIndex
    omega
  refine ⟨rfl, hneg, ?_, ?_, ?_⟩
  · unfold resolveIndexMain resolveIndex
    rw [if_pos (by unfold resolveIndex at hneg; omega)]
  · apply pyGet_eq_some_of_bounds <;> rw [hl] <;> unfold resolveIndex at hneg ⊢ <;> omega
  · rw [pyGet_neg _ _ hneg, if_pos (by rw [hl]; unfold resolveIndex at hneg ⊢; omega)]

/-- C1 witness: the amended statement at start hour 23, requested 01:00,
now 02:00, against the sample 24-entry value list. -/
theorem claim1_witness :
    resolveIndexMain 23 ⟨1, 0, 0, 0⟩ ⟨2, 0, 0, 0⟩
      = (requestedHour ⟨1, 0, 0, 0⟩ ⟨2, 0, 0, 0⟩ : Int) - 23 - 1
    ∧ ∃ v, pyGet sampleVals (resolveIndex 23 ⟨1, 0, 0, 0⟩ ⟨2, 0, 0, 0⟩) = some v :=
  ⟨(claim1_no_out_of_range_report 23 ⟨1, 0, 0, 0⟩ ⟨2, 0, 0, 0⟩ sampleVals
      (by decide) (by decide) (by decide)).2.2.1,
   (claim1_no_out_of_range_report 23 ⟨1, 0, 0, 0⟩ ⟨2, 0, 0, 0⟩ sampleVals
      (by decide) (by decide) (by decide)).2.2.2.1⟩

/-- C8 counterexample: a store whose only city "a" has no cached forecast
and a store with no city "a" at all produce the identical outcome — the
same 404 with the same detail — so "location does not exist" and
"location exists but has no cached forecast" are not distinct; and a
requested time outside the cached horizon (03:00 against a series
starting at 05:00, with now 23:00) does not fail at all: the handler
answers 200 with the value at position 22. -/
theorem claim8_counterexample :
    cityWeather [⟨1, "a", 0, 0, none⟩] "a" ⟨12, 0, 0, 0⟩ ⟨12, 0, 0, 0⟩ [.temperature]
      = cityWeather [] "a" ⟨12, 0, 0, 0⟩ ⟨12, 0, 0, 0⟩ [.temperature]
    ∧ cityWeather [⟨1, "a", 0, 0, none⟩] "a" ⟨12, 0, 0, 0⟩ ⟨12, 0, 0, 0⟩ [.temperature]
      = .notFound "City not found or forecast is not available"
    ∧ cityWeather (sampleStore 5) "tokyo" ⟨3, 0, 0, 0⟩ ⟨23, 0, 0, 0⟩ [.temperature]
      = .ok [(.temperature, 22)] := by
  refine ⟨by decide, by decide, by decide⟩

/-- C8 (amended): the three conditions are not pairwise distinct: a
request for an unregistered location and one for a registered location
with no cached series both yield the identical 404 detail "City not found
or forecast is not available", while a requested time outside the cached
horizon never fails — for any valid time against a 24-entry series the
handler returns a value. -/
theorem claim8_not_found_collapsed (store : List CityRow) (name : String)
    (t now : TimeOfDay) (ps : List WeatherParameter) :
    (store.find? (fun c => c.name == name) = none →
      cityWeather store name t now ps
        = .notFound "City not found or forecast is not available")
    ∧ (∀ c, store.find? (fun c => c.name == name) = some c → c.forecast = none →
      cityWeather store name t now ps
        = .notFound "City not found or forecast is not available")
    ∧ (∀ f ts, getForecastJson store name = some f →
        f.hourly.times.get? 0 = some ts → ts.hour < 24 → t.hour < 24 →
        (∀ p, (f.hourly.param p).length = 24) →
        ∃ data, cityWeather store name t now ps = .ok data) := by
  refine ⟨fun h => ?_, fun c hc hfc => ?_, fun f ts hf hts hh ht hlen => ?_⟩
  · simp only [cityWeather, getForecastJson, h]
  · simp only [cityWeather, getForecastJson, hc, hfc]
  · exact cityWeather_returns_ok store name t now ps f ts hf hts hh ht hlen

/-- C8 witness: the collapsed not-found outcomes at the two concrete
stores, and a success for the sample series. -/
theorem claim8_witness :
    cityWeather ([] : List CityRow) "a" ⟨12, 0, 0, 0⟩ ⟨12, 0, 0, 0⟩ [.temperature]
      = .notFound "City not found or forecast is not available"
    ∧ cityWeather [⟨1, "a", 0, 0, none⟩] "a" ⟨12, 0, 0, 0⟩ ⟨12, 0, 0, 0⟩ [.temperature]
      = .notFound "City not found or forecast is not available"
    ∧ ∃ data, cityWeather (sampleStore 5) "tokyo" ⟨3, 0, 0, 0⟩ ⟨23, 0, 0, 0⟩
        [.temperature] = .ok data :=
  ⟨(claim8_not_found_collapsed [] "a" ⟨12, 0, 0, 0⟩ ⟨12, 0, 0, 0⟩ [.temperature]).1
      (by decide),
   (claim8_not_found_collapsed [⟨1, "a", 0, 0, none⟩] "a" ⟨12, 0, 0, 0⟩
      ⟨12, 0, 0, 0⟩ [.temperature]).2.1 ⟨1, "a", 0, 0, none⟩ (by decide) rfl,
   (claim8_not_found_collapsed (sampleStore 5) "tokyo" ⟨3, 0, 0, 0⟩ ⟨23, 0, 0, 0⟩
      [.temperature]).2.2 (sampleForecast 5) ⟨0, 5⟩ (by decide) (by decide)
      (by decide) (by decide) (fun p => by cases p <;> decide)⟩

/-! ## Retry loop lemmas -/

theorem retryable_iff (r : AttemptResult) :
    isRetryableFailure r = true ↔ ∃ s d, r = .response s d ∧ 400 ≤ s := by
  cases r with
  | response s d => simp [isRetryableFailure]
  | connError => simp [isRetryableFailure]

theorem attemptLoop_retry_step (oracle : Nat → AttemptResult) (a fuel s : Nat)
    (d : UpstreamJson) (ho : oracle a = .response s d) (hs : 400 ≤ s)
    (hfuel : fuel ≠ 0) :
    attemptLoop oracle a (fuel + 1) =
      ⟨(attemptLoop oracle (a + 1) fuel).outcome,
       (attemptLoop oracle (a + 1) fuel).attempts + 1,
       10 :: (attemptLoop oracle (a + 1) fuel).sleeps⟩ := by
  simp only [attemptLoop, ho]
  rw [if_pos hs, if_neg hfuel]

theorem attemptLoop_last_fail (oracle : Nat → AttemptResult) (a s : Nat)
    (d : UpstreamJson) (ho : oracle a = .response s d) (hs : 400 ≤ s) :
    attemptLoop oracle a 1 = ⟨.unaccessable, 1, []⟩ := by
  simp only [attemptLoop, ho]
  rw [if_pos hs, if_pos trivial]

theorem attemptLoop_success (oracle : Nat → AttemptResult) (a fuel s : Nat)
    (d : UpstreamJson) (ho : oracle a = .response s d) (hs : s < 400) :
    attemptLoop oracle a (fuel + 1) = ⟨.ok (wrapData d), 1, []⟩ := by
  simp only [attemptLoop, ho]
  rw [if_neg (by omega)]

theorem fetchForecasts_nonempty (coords : List Coord) (oracle : Nat → AttemptResult)
    (h : coords ≠ []) : fetchForecasts coords oracle = attemptLoop oracle 0 3 := by
  cases coords with
  | nil => exact absurd rfl h
  | cons a l => rfl

/-- C3: with a non-empty coordinate list and every attempt failing with a
retryable error (an HTTP error status), fetch_forecasts makes exactly 3
attempts, sleeps 10 time units between consecutive attempts, and ends
with OpenMeteoUnnacessableError; if the attempts before some k < 3 fail
retryably and attempt k succeeds, it returns attempt k's payload after
k + 1 requests. -/
theorem claim3_retry_exhaustion (coords : List Coord) (oracle : Nat → AttemptResult)
    (h : coords ≠ []) :
    ((∀ a, a < 3 → isRetryableFailure (oracle a) = true) →
      fetchForecasts coords oracle = ⟨.unaccessable, 3, [10, 10]⟩)
    ∧ (∀ k, k < 3 → (∀ a, a < k → isRetryableFailure (oracle a) = true) →
        ∀ s d, oracle k = .response s d → s < 400 →
        fetchForecasts coords oracle = ⟨.ok (wrapData d), k + 1, List.replicate k 10⟩) := by
  rw [fetchForecasts_nonempty coords oracle h]
  constructor
  · intro hfail
    obtain ⟨s0, d0, h0, hs0⟩ := (retryable_iff _).mp (hfail 0 (by omega))
    obtain ⟨s1, d1, h1, hs1⟩ := (retryable_iff _).mp (hfail 1 (by omega))
    obtain ⟨s2, d2, h2, hs2⟩ := (retryable_iff _).mp (hfail 2 (by omega))
    have e1 : attemptLoop oracle 0 3 = _ :=
      attemptLoop_retry_step oracle 0 2 s0 d0 h0 hs0 (by omega)
    have e2 : attemptLoop oracle 1 2 = _ :=
      attemptLoop_retry_step oracle 1 1 s1 d1 h1 hs1 (by omega)
    have e3 : attemptLoop oracle 2 1 = ⟨.unaccessable, 1, []⟩ :=
      attemptLoop_last_fail oracle 2 s2 d2 h2 hs2
    rw [e1, e2, e3]
  · intro k hk hfail s d hkresp hs
    interval_cases k
    · exact attemptLoop_success oracle 0 2 s d hkresp hs
    · obtain ⟨s0, d0, h0, hs0⟩ := (retryable_iff _).mp (hfail 0 (by omega))
      have e1 : attemptLoop oracle 0 3 = _ :=
        attemptLoop_retry_step oracle 0 2 s0 d0 h0 hs0 (by omega)
      have e2 : attemptLoop oracle 1 2 = ⟨.ok (wrapData d), 1, []⟩ :=
        attemptLoop_success oracle 1 1 s d hkresp hs
      rw [e1, e2]
      rfl
    · obtain ⟨s0, d0, h0, hs0⟩ := (retryable_iff _).mp (hfail 0 (by omega))
      obtain ⟨s1, d1, h1, hs1⟩ := (retryable_iff _).mp (hfail 1 (by omega))
      have e1 : attemptLoop oracle 0 3 = _ :=
        attemptLoop_retry_step oracle 0 2 s0 d0 h0 hs0 (by omega)
      have e2 : attemptLoop oracle 1 2 = _ :=
        attemptLoop_retry_step oracle 1 1 s1 d1 h1 hs1 (by omega)
      have e3 : attemptLoop oracle 2 1 = ⟨.ok (wrapData d), 1, []⟩ :=
        attemptLoop_success oracle 2 0 s d hkresp hs
      rw [e1, e2, e3]
      rfl

/-- An upstream that answers HTTP 500 on every attempt. -/
def alwaysServerError : Nat → AttemptResult :=
  fun _ => .response 500 (.many [])

/-- An upstream that answers HTTP 500 on the first two attempts and
succeeds with one payload on the third. -/
def failTwiceOracle : Nat → AttemptResult :=
  fun a => if a < 2 then .response 500 (.many []) else .response 200 (.one (sampleForecast 0))

/-- C3 witness: one coordinate against the always-failing upstream makes
3 attempts then fails, and against the fail-twice upstream succeeds on
the third attempt with its payload. -/
theorem claim3_witness :
    fetchForecasts [(0, 0)] alwaysServerError = ⟨.unaccessable, 3, [10, 10]⟩
    ∧ fetchForecasts [(0, 0)] failTwiceOracle
        = ⟨.ok (wrapData (.one (sampleForecast 0))), 3, List.replicate 2 10⟩ :=
  ⟨(claim3_retry_exhaustion [(0, 0)] alwaysServerError (by simp)).1
      (fun a _ => rfl),
   (claim3_retry_exhaustion [(0, 0)] failTwiceOracle (by simp)).2 2 (by omega)
      (fun a ha => by interval_cases a <;> rfl) 200 (.one (sampleForecast 0))
      rfl (by omega)⟩

/-- C2 (code-bug evidence): a non-retryable client error — HTTP 400 on
every attempt — is nevertheless retried: 3 requests with two 10-unit
sleeps, ending in OpenMeteoUnnacessableError instead of failing
immediately; and a connectivity failure, which the spec calls retryable,
is not caught at all: one request, no sleep, the exception propagating. -/
theorem claim2_client_error_is_retried :
    fetchForecasts [(0, 0)] (fun _ => .response 400 (.many []))
      = ⟨.unaccessable, 3, [10, 10]⟩
    ∧ fetchForecasts [(0, 0)] (fun _ => .connError) = ⟨.uncaughtError, 1, []⟩ := by
  exact ⟨rfl, rfl⟩

/-- C7: the inter-cycle sleep is max(0, period - elapsed) with a 15-minute
period: below the period it is exactly the remainder, at or above the
period it is exactly zero, and it is never negative. -/
theorem claim7_sleep_never_negative (elapsed : ℚ) :
    (elapsed < 15 * 60 → sleepSeconds elapsed = 15 * 60 - elapsed)
    ∧ (15 * 60 ≤ elapsed → sleepSeconds elapsed = 0)
    ∧ 0 ≤ sleepSeconds elapsed := by
  refine ⟨fun h => ?_, fun h => ?_, le_max_left 0 _⟩
  · unfold sleepSeconds
    rw [max_eq_right (by linarith)]
  · unfold sleepSeconds
    rw [max_eq_left (by linarith)]

/-- C7 witness: a 10-minute cycle sleeps the remaining 5 minutes; a
1000-second cycle (longer than the period) sleeps exactly zero. -/
theorem claim7_witness :
    sleepSeconds 600 = 15 * 60 - 600 ∧ sleepSeconds 1000 = 0 :=
  ⟨(claim7_sleep_never_negative 600).1 (by norm_num),
   (claim7_sleep_never_negative 1000).2.1 (by norm_num)⟩

/-! ## Page-write lemmas -/

theorem writePage_nil_forecasts (st : Store) (ids : List Nat) :
    writePage st ids [] = st := by
  simp [writePage]

theorem writePage_cons (st : Store) (a : Nat) (f : Forecast) (ids : List Nat)
    (fs : List Forecast) :
    writePage st (a :: ids) (f :: fs) = writePage (writeForecast st a f) ids fs := rfl

theorem writeForecast_ne (st : Store) (cid : Nat) (f : Forecast) (x : Nat)
    (h : x ≠ cid) : writeForecast st cid f x = st x := by
  simp [writeForecast, h]

theorem writePage_not_mem (ids : List Nat) (fs : List Forecast) (st : Store) (x : Nat)
    (h : x ∉ ids) : writePage st ids fs x = st x := by
  induction ids generalizing fs st with
  | nil => simp [writePage]
  | cons a ids ih =>
    simp only [List.mem_cons, not_or] at h
    cases fs with
    | nil => rw [writePage_nil_forecasts]
    | cons f fs =>
      rw [writePage_cons, ih fs _ h.2]
      exact writeForecast_ne st a f x h.1

theorem writePage_get (ids : List Nat) (fs : List Forecast) (st : Store) (i : Nat)
    (hi : i < ids.length) (hi' : i < fs.length) (hnod : ids.Nodup) :
    writePage st ids fs (ids.get ⟨i, hi⟩) = some (fs.get ⟨i, hi'⟩) := by
  induction ids generalizing fs st i with
  | nil => exact absurd hi (by simp)
  | cons a ids ih =>
    cases fs with
    | nil => exact absurd hi' (by simp)
    | cons f fs =>
      rw [writePage_cons]
      cases i with
      | zero =>
        show writePage (writeForecast st a f) ids fs a = some f
        rw [writePage_not_mem ids fs _ a (List.nodup_cons.mp hnod).1]
        simp [writeForecast]
      | succ i =>
        have h1 : i < ids.length := by simpa using hi
        have h2 : i < fs.length := by simpa using hi'
        simpa using ih fs (writeForecast st a f) i h1 h2 (List.nodup_cons.mp hnod).2

theorem writePage_beyond (ids : List Nat) (fs : List Forecast) (st : Store) (i : Nat)
    (hi : i < ids.length) (hb : fs.length ≤ i) (hnod : ids.Nodup) :
    writePage st ids fs (ids.get ⟨i, hi⟩) = st (ids.get ⟨i, hi⟩) := by
  induction ids generalizing fs st i with
  | nil => exact absurd hi (by simp)
  | cons a ids ih =>
    cases fs with
    | nil => rw [writePage_nil_forecasts]
    | cons f fs =>
      cases i with
      | zero => exact absurd hb (by simp)
      | succ i =>
        rw [writePage_cons]
        have h1 : i < ids.length := by simpa using hi
        have hb1 : fs.length ≤ i := by simpa using hb
        have hstep := ih fs (writeForecast st a f) i h1 hb1 (List.nodup_cons.mp hnod).2
        have hne : ids.get ⟨i, h1⟩ ≠ a := by
          intro hEq
          exact (List.nodup_cons.mp hnod).1 (hEq ▸ List.get_mem ids i h1)
        rw [List.get_cons_succ, hstep, writeForecast_ne st a f _ hne]

/-! ## Refresh-cycle lemmas -/

theorem refreshGo_eq_pure (fetch : Nat → PageFetch) (pages : List Page) (j : Nat)
    (st : Store) (hnc : ∀ i, fetch i ≠ .crash) :
    refreshGo fetch pages j st = .ok (refreshPure fetch pages j st) := by
  induction pages generalizing j st with
  | nil => rfl
  | cons p rest ih =>
    cases hf : fetch j with
    | ok fs =>
      simp only [refreshGo, refreshPure, hf]
      by_cases hz : (idsOf p).zip fs = []
      · rw [if_pos hz, if_pos hz]
        exact ih _ _
      · rw [if_neg hz, if_neg hz]
    | unavailable =>
      simp only [refreshGo, refreshPure, hf]
      exact ih _ _
    | crash => exact absurd hf (hnc j)

/-- Three one-row pages with ids 1, 2, 3. -/
def wPages : List Page := [[(1, 0, 0)], [(2, 0, 0)], [(3, 0, 0)]]

/-- A fetch where the first page fails with OpenMeteoUnnacessableError
and the others would succeed with one series. -/
def wFetch : Nat → PageFetch :=
  fun i => if i = 0 then .unavailable else .ok [sampleForecast 0]

/-- The store with no forecast cached for any city. -/
def stEmpty : Store := fun _ => none

/-- C4 (code-bug evidence): refresh_forecasts runs its UPDATEs on the
same cursor that serves the paging SELECT, so the first page that writes
discards the pending rows and ends pagination.  With three one-row pages
(ids 1, 2, 3) where page 0's fetch fails with OpenMeteoUnnacessableError
and every later fetch would succeed: page 0's location correctly keeps
its pre-cycle series and the loop continues to page 1, which is fetched
and written — but page 2 is then never fetched, and id 3 stays unwritten
even though its fetch (wFetch 2) would have succeeded, contradicting
"every remaining page is still fetched and, on success, written". -/
theorem claim4_cursor_ends_pagination :
    refreshForecasts wPages wFetch stEmpty = .ok (refreshPure wFetch wPages 0 stEmpty)
    ∧ refreshPure wFetch wPages 0 stEmpty 1 = none
    ∧ refreshPure wFetch wPages 0 stEmpty 2 = some (sampleForecast 0)
    ∧ refreshPure wFetch wPages 0 stEmpty 3 = none
    ∧ wFetch 2 = .ok [sampleForecast 0] :=
  ⟨rfl, rfl, rfl, rfl, rfl⟩

/-- A single page holding two rows with ids 1 and 2. -/
def cPage : Page := [(1, 0, 0), (2, 0, 0)]

/-- A fetch whose response has only one series for the two-row page. -/
def cFetch : Nat → PageFetch := fun _ => .ok [sampleForecast 0]

/-- C6 counterexample: a page of two locations whose response carries
only one series is NOT skipped: the single series is written to the first
location (id 1) while the second keeps its old value — the short response
is silently zipped against the location ids, contrary to the claimed
per-page skip. -/
theorem claim6_counterexample :
    cFetch 0 = .ok [sampleForecast 0]
    ∧ ([sampleForecast 0] : List Forecast).length ≠ (idsOf cPage).length
    ∧ refreshForecasts [cPage] cFetch stEmpty = .ok (refreshPure cFetch [cPage] 0 stEmpty)
    ∧ refreshPure cFetch [cPage] 0 stEmpty 1 = some (sampleForecast 0)
    ∧ refreshPure cFetch [cPage] 0 stEmpty 2 = none :=
  ⟨rfl, by decide, rfl, rfl, rfl⟩

/-- C6 (amended): within one successfully fetched page, series `i` is
written back to the location that supplied coordinates `i` (input order
preserved); but a response whose length diverges from the request is not
detected: `zip` silently truncates, writing the common prefix, while the
locations beyond the response length keep their previous series — the
page is never skipped for divergence. -/
theorem claim6_zip_truncates (p : Page) (fs : List Forecast) (st : Store)
    (fetch : Nat → PageFetch) (hf : fetch 0 = .ok fs) (hnod : (idsOf p).Nodup) :
    refreshForecasts [p] fetch st = .ok (writePage st (idsOf p) fs)
    ∧ (∀ i (hi : i < (idsOf p).length) (hi' : i < fs.length),
        writePage st (idsOf p) fs ((idsOf p).get ⟨i, hi⟩) = some (fs.get ⟨i, hi'⟩))
    ∧ (∀ i (hi : i < (idsOf p).length), fs.length ≤ i →
        writePage st (idsOf p) fs ((idsOf p).get ⟨i, hi⟩)
          = st ((idsOf p).get ⟨i, hi⟩)) := by
  refine ⟨?_, fun i hi hi' => writePage_get _ fs st i hi hi' hnod,
    fun i hi hb => writePage_beyond _ fs st i hi hb hnod⟩
  simp only [refreshForecasts, refreshGo, hf]
  by_cases hz : (idsOf p).zip fs = []
  · rw [if_pos hz]
    unfold writePage
    rw [hz]
    rfl
  · rw [if_neg hz]

/-- C6 witness: the two-row page against the one-series response: the
cycle result is the truncating write, id 1 gets the series, id 2 keeps
its old (empty) value. -/
theorem claim6_witness :
    refreshForecasts [cPage] cFetch stEmpty
      = .ok (writePage stEmpty (idsOf cPage) [sampleForecast 0])
    ∧ writePage stEmpty (idsOf cPage) [sampleForecast 0] 1 = some (sampleForecast 0)
    ∧ writePage stEmpty (idsOf cPage) [sampleForecast 0] 2 = stEmpty 2 :=
  ⟨(claim6_zip_truncates cPage [sampleForecast 0] stEmpty cFetch rfl (by decide)).1,
   (claim6_zip_truncates cPage [sampleForecast 0] stEmpty cFetch rfl (by decide)).2.1
      0 (by decide) (by decide),
   (claim6_zip_truncates cPage [sampleForecast 0] stEmpty cFetch rfl (by decide)).2.2
      1 (by decide) (by decide)⟩

/-! ## add_city lemmas -/

theorem find?_append_of_none {α : Type} (l1 l2 : List α) (p : α → Bool)
    (h : l1.find? p = none) : (l1 ++ l2).find? p = l2.find? p := by
  induction l1 with
  | nil => simp
  | cons a l ih =>
    cases hpa : p a with
    | true =>
      rw [List.find?_cons_of_pos _ hpa] at h
      cases h
    | false =>
      rw [List.find?_cons_of_neg _ (by simp [hpa])] at h
      rw [List.cons_append, List.find?_cons_of_neg _ (by simp [hpa])]
      exact ih h

/-- C10: add_city is idempotent on the (name, lat, lon) key: when a row
with the city's name, latitude and longitude is already stored, add_city
performs no upstream fetch, no INSERT and no overwrite — the store is
returned unchanged and the summary carries the already-stored row's id
and fields; hence adding a city that a previous call inserted leaves the
store exactly as that call left it. -/
theorem claim10_add_city_idempotent :
    (∀ (store : List CityRow) (c : CityCreate) (f : Option Forecast) (row : CityRow),
      findCity store c.name c.lat c.lon = some row →
      addCity store c f
        = ⟨some ⟨row.id, row.name, row.lat, row.lon⟩, store, false, false⟩)
    ∧ (∀ (store : List CityRow) (c : CityCreate) (f1 f2 : Option Forecast),
      (addCity store c f1).inserted = true →
      addCity (addCity store c f1).store c f2
        = ⟨(addCity store c f1).summary, (addCity store c f1).store, false, false⟩) := by
  constructor
  · intro store c f row hfind
    simp only [addCity, hfind]
  · intro store c f1 f2 hins
    cases hf : findCity store c.name c.lat c.lon with
    | some row =>
      rw [addCity, hf] at hins
      cases hins
    | none =>
      by_cases hany : store.any (fun r => decide (r.lat = c.lat ∧ r.lon = c.lon)) = true
      · rw [addCity, hf, if_pos hany] at hins
        cases hins
      · have hstep : addCity store c f1
            = ⟨some ⟨c.id, c.name, c.lat, c.lon⟩,
               store ++ [⟨c.id, c.name, c.lat, c.lon, f1⟩], true, true⟩ := by
          rw [addCity, hf, if_neg hany]
        have hfind2 : findCity (store ++ [⟨c.id, c.name, c.lat, c.lon, f1⟩])
            c.name c.lat c.lon = some ⟨c.id, c.name, c.lat, c.lon, f1⟩ := by
          unfold findCity at hf ⊢
          rw [find?_append_of_none _ _ _ hf]
          simp
        rw [hstep]
        simp only [addCity, hfind2]

/-- A stored city row used by the C10 witness. -/
def cityA : CityRow := ⟨7, "paris", 48, 2, none⟩

/-- C10 witness: re-adding "paris" at (48, 2) returns the stored id 7
with no change to the store, and a fresh insert followed by the same
add_city call leaves the store exactly as the insert left it. -/
theorem claim10_witness :
    addCity [cityA] ⟨9, "paris", 48, 2⟩ none
      = ⟨some ⟨7, "paris", 48, 2⟩, [cityA], false, false⟩
    ∧ addCity (addCity [] (⟨9, "paris", 48, 2⟩ : CityCreate) none).store
        ⟨9, "paris", 48, 2⟩ none
      = ⟨(addCity [] (⟨9, "paris", 48, 2⟩ : CityCreate) none).summary,
         (addCity [] (⟨9, "paris", 48, 2⟩ : CityCreate) none).store, false, false⟩ :=
  ⟨claim10_add_city_idempotent.1 [cityA] ⟨9, "paris", 48, 2⟩ none cityA (by decide),
   claim10_add_city_idempotent.2 [] ⟨9, "paris", 48, 2⟩ none none (by decide)⟩

end Weatherio
